import Mathlib

/-!
# Verification of `hooks/tk-multi-shotgunpanel/unity_actions.py`

Shallow embedding of the `UnityActions` hook class: the action enumerator
`generate_actions` and the action executor `execute_action`.

External collaborators (the base hook class, the configuration `settings`,
the `unity_metadata` resolver module, and the Unity host-editor API) are
modelled as an explicit environment of oracles supplied per invocation.
Observable interactions (host-editor calls, log messages, delegation to the
base class, calls into the metadata resolver) are recorded in a trace so
that short-circuiting and "no call happens" properties can be stated.

Python dictionaries with string keys and string values are modelled as
ordered association lists with Python dict semantics for lookup and
insertion (updating an existing key keeps its position, a new key is
appended).  Python truthiness of optional strings / dicts is modelled
explicitly (`None` and empty values are falsy).
-/

/-- A Python dict with string keys and string values (insertion ordered). -/
abbrev PyDict := List (String × String)

/-- `d.get(k)` / `d[k]` lookup: first binding of key `k`, if any. -/
def dictGet (d : PyDict) (k : String) : Option String :=
  match d.find? (fun p => p.1 == k) with
  | some p => some p.2
  | none => none

/-- `d[k] = v` on a Python dict: replace in place if the key exists,
otherwise append at the end (Python dicts preserve insertion order). -/
def dictInsert : PyDict → String → String → PyDict
  | [], k, v => [(k, v)]
  | (k', v') :: rest, k, v =>
    if k' = k then (k, v) :: rest else (k', v') :: dictInsert rest k v

/-- Python truthiness of an optional string (`None` and `""` are falsy). -/
def pyTruthyOptStr : Option String → Bool
  | none => false
  | some s => s != ""

/-- Python truthiness of an optional dict (`None` and `{}` are falsy). -/
def pyTruthyOptDict : Option PyDict → Bool
  | none => false
  | some d => d != []

/-- An action descriptor as returned by `generate_actions`: a dict with
keys `name`, `params`, `caption`, `group`, `description`. -/
structure ActionDescriptor where
  name : String
  params : PyDict
  group : String
  caption : String
  description : String
deriving DecidableEq, Repr

/-- External calls made by `generate_actions` into the `unity_metadata`
resolver module, in order of occurrence. -/
inductive GenCall where
  | resolveMetadata
  | checkProject
  | checkScene
deriving DecidableEq, Repr

/-- The collaborators of one `generate_actions` invocation:
the base-class result, the configured `main_timeline_tag`
(`app.settings.get` returns `None` when absent), and the behaviour of the
`unity_metadata` module on this entity's `sg_data`. -/
structure GenEnv where
  base : List ActionDescriptor
  settings_main_timeline_tag : Option String
  resolver : Option PyDict
  relates_to_current_project : PyDict → Bool
  relates_to_existing_scene : PyDict → Bool

/-- The `jump_to_frame` descriptor appended on full eligibility (source
lines 79-88): the resolved metadata gains key `main_timeline_tag` before
being attached as `params`. -/
def jumpDesc (metadata : PyDict) (main_timeline_tag : String) : ActionDescriptor :=
  { name := "jump_to_frame"
    params := dictInsert metadata "main_timeline_tag" main_timeline_tag
    group := "Jump to Frame"
    caption := "Jump to Frame"
    description := "Opens the associated Unity scene and scrubs to the associated frame." }

/-- `UnityActions.generate_actions` (source lines 19-90).  Returns the
action-descriptor list together with the trace of calls made into the
`unity_metadata` resolver module. -/
def generate_actions (env : GenEnv) (actions : List String) :
    List ActionDescriptor × List GenCall :=
  let action_instances := env.base
  if "jump_to_frame" ∈ actions then
    match env.settings_main_timeline_tag with
    | none => (action_instances, [])
    | some main_timeline_tag =>
      if main_timeline_tag = "" then (action_instances, [])
      else
        match env.resolver with
        | none => (action_instances, [GenCall.resolveMetadata])
        | some metadata =>
          if metadata = [] then (action_instances, [GenCall.resolveMetadata])
          else if env.relates_to_current_project metadata = false then
            (action_instances, [GenCall.resolveMetadata, GenCall.checkProject])
          else if env.relates_to_existing_scene metadata = false then
            (action_instances,
             [GenCall.resolveMetadata, GenCall.checkProject, GenCall.checkScene])
          else if pyTruthyOptStr (dictGet metadata "frame_number") = false then
            (action_instances,
             [GenCall.resolveMetadata, GenCall.checkProject, GenCall.checkScene])
          else
            (action_instances ++ [jumpDesc metadata main_timeline_tag],
             [GenCall.resolveMetadata, GenCall.checkProject, GenCall.checkScene])
  else (action_instances, [])

/-! ## The action executor -/

/-- Parsing the digits of a Python `int(...)` literal. -/
def parseDigits (cs : List Char) : Option Nat :=
  if cs = [] then none
  else
    cs.foldl
      (fun acc c =>
        match acc with
        | none => none
        | some n => if c.isDigit then some (n * 10 + (c.toNat - 48)) else none)
      (some 0)

/-- Strip leading and trailing whitespace from a character list (Python's
`int` ignores surrounding whitespace). -/
def stripWs (cs : List Char) : List Char :=
  ((cs.dropWhile Char.isWhitespace).reverse.dropWhile Char.isWhitespace).reverse

/-- Python `int(s)` on a string: optional surrounding whitespace, optional
sign, then one or more decimal digits; `none` models a raised
`ValueError`. -/
def pyInt (s : String) : Option Int :=
  match stripWs s.data with
  | '-' :: rest => (parseDigits rest).map (fun n => -(n : Int))
  | '+' :: rest => (parseDigits rest).map (fun n => (n : Int))
  | cs => (parseDigits cs).map (fun n => (n : Int))

/-- A timeline asset (`PlayableAsset`); `fps` comes from its
`editorSettings`.  Modelled over `ℚ` since the source divides with
real-valued (float) division. -/
structure Timeline where
  fps : ℚ
deriving DecidableEq

/-- A `PlayableDirector` component: it may or may not have a playable
asset assigned. -/
structure Director where
  playableAsset : Option Timeline
deriving DecidableEq

/-- A Unity `GameObject` together with the result of
`GetComponent(PlayableDirector)` on it. -/
structure UGameObject where
  name : String
  director : Option Director
deriving DecidableEq

/-- The statements of the `try` block of `execute_action` at which the
host editor may raise an exception. -/
inductive TryStep where
  | select
  | getAsset
  | getFps
  | setTime
deriving DecidableEq, Repr

/-- The host-editor environment of one `execute_action` invocation:
what `FindGameObjectsWithTag` returns for each tag, and whether (and at
which statement, with what message) the host raises inside the `try`
block. -/
structure ExecEnv where
  findGameObjectsWithTag : String → List UGameObject
  raiseAt : Option (TryStep × String)

/-- The message the host would raise at step `s`, if any. -/
def raiseMsg (r : Option (TryStep × String)) (s : TryStep) : Option String :=
  match r with
  | some (s', msg) => if s' = s then some msg else none
  | none => none

/-- Observable effects of `execute_action`: host-editor calls, error-log
messages, and delegation to the base-class executor. -/
inductive Effect where
  | openScene (path : Option String)
  | executeMenuItem (item : String)
  | findGameObjectsWithTag (tag : String)
  | getComponent (objName : String)
  | setActiveObject (objName : String)
  | setTime (t : ℚ)
  | logError (msg : String)
  | callBase (name : String) (params : PyDict) (sg_data : PyDict)
deriving DecidableEq

/-- Which effects are calls into the host editor (as opposed to logging
or base-class delegation). -/
def Effect.isHostCall : Effect → Bool
  | .openScene _ => true
  | .executeMenuItem _ => true
  | .findGameObjectsWithTag _ => true
  | .getComponent _ => true
  | .setActiveObject _ => true
  | .setTime _ => true
  | .logError _ => false
  | .callBase _ _ _ => false

/-- Source line 136: the error logged when no tagged `PlayableDirector`
is found. -/
def pleaseTagMsg (tag : String) : String :=
  "Shotgun is unable to jump to frame: please choose a PlayableDirector and tag it with \"" ++
    tag ++ "\"."

/-- Source line 129: the error logged when the director has no playable
asset assigned. -/
def noAssetMsg (objName : String) : String :=
  "Shotgun is unable to jump to frame: The \"" ++ objName ++
    "\" PlayableDirector does not have a valid Playable Asset assigned."

/-- Source line 133: the error logged by the `except` handler. -/
def catchMsg (msg : String) : String := "Unable to Jump to Frame: " ++ msg

/-- The `try ... except` block of `execute_action` (source lines 121-133),
entered with the found director.  Any exception raised by a host call in
the block (per `raiseAt`) is caught and logged; a zero `fps` raises a
`ZeroDivisionError` inside the block, likewise caught. -/
def tryBody (raiseAt : Option (TryStep × String)) (g0 : UGameObject)
    (director : Director) (frame_number : Int) : List Effect :=
  match raiseMsg raiseAt TryStep.select with
  | some msg => [Effect.logError (catchMsg msg)]
  | none =>
    Effect.setActiveObject g0.name ::
      match raiseMsg raiseAt TryStep.getAsset with
      | some msg => [Effect.logError (catchMsg msg)]
      | none =>
        match director.playableAsset with
        | some timeline =>
          match raiseMsg raiseAt TryStep.getFps with
          | some msg => [Effect.logError (catchMsg msg)]
          | none =>
            if timeline.fps = 0 then
              [Effect.logError (catchMsg "float division by zero")]
            else
              match raiseMsg raiseAt TryStep.setTime with
              | some msg => [Effect.logError (catchMsg msg)]
              | none => [Effect.setTime ((frame_number : ℚ) / timeline.fps)]
        | none => [Effect.logError (noAssetMsg g0.name)]

/-- The outcome of one `execute_action` invocation: the effects performed,
and the message of an unhandled exception when one propagates to the
caller. -/
structure ExecResult where
  effects : List Effect
  raised : Option String
deriving DecidableEq

/-- `UnityActions.execute_action` (source lines 92-138). -/
def execute_action (env : ExecEnv) (name : String) (params : PyDict)
    (sg_data : PyDict) : ExecResult :=
  if name = "jump_to_frame" then
    let metadata := params
    match dictGet metadata "frame_number" with
    | none => { effects := [], raised := some "KeyError: frame_number" }
    | some fnStr =>
      match pyInt fnStr with
      | none =>
        { effects := []
          raised := some ("ValueError: invalid literal for int() with base 10: " ++ fnStr) }
      | some frame_number =>
        let e1 : List Effect :=
          [Effect.openScene (dictGet metadata "scene_path"),
           Effect.executeMenuItem "Window/Sequencing/Timeline"]
        match dictGet params "main_timeline_tag" with
        | none => { effects := e1, raised := some "KeyError: main_timeline_tag" }
        | some tag =>
          let e2 := e1 ++ [Effect.findGameObjectsWithTag tag]
          match env.findGameObjectsWithTag tag with
          | [] =>
            { effects := e2 ++ [Effect.logError (pleaseTagMsg tag)], raised := none }
          | g0 :: _ =>
            let e3 := e2 ++ [Effect.getComponent g0.name]
            match g0.director with
            | none =>
              { effects := e3 ++ [Effect.logError (pleaseTagMsg tag)], raised := none }
            | some director =>
              { effects := e3 ++ tryBody env.raiseAt g0 director frame_number
                raised := none }
  else { effects := [Effect.callBase name params sg_data], raised := none }


/-! ## Dictionary lemmas -/

theorem dictGet_cons (k₀ v₀ : String) (rest : PyDict) (k : String) :
    dictGet ((k₀, v₀) :: rest) k = if k₀ = k then some v₀ else dictGet rest k := by
  by_cases h : k₀ = k
  · simp [dictGet, h]
  · simp [dictGet, h]

theorem dictGet_dictInsert_self (d : PyDict) (k v : String) :
    dictGet (dictInsert d k v) k = some v := by
  induction d with
  | nil => simp [dictInsert, dictGet_cons]
  | cons p rest ih =>
    obtain ⟨k₀, v₀⟩ := p
    by_cases h : k₀ = k
    · simp [dictInsert, h, dictGet_cons]
    · simp [dictInsert, h, dictGet_cons, ih]

theorem dictGet_dictInsert_ne (d : PyDict) (k k' v : String) (h : k' ≠ k) :
    dictGet (dictInsert d k v) k' = dictGet d k' := by
  induction d with
  | nil => simp [dictInsert, dictGet_cons, dictGet, Ne.symm h]
  | cons p rest ih =>
    obtain ⟨k₀, v₀⟩ := p
    by_cases h0 : k₀ = k
    · subst h0
      simp [dictInsert, dictGet_cons, Ne.symm h]
    · simp [dictInsert, h0, dictGet_cons, ih]

/-! ## Characterization lemmas for the enumerator -/

theorem generate_actions_eligible (env : GenEnv) (actions : List String)
    (md : PyDict) (tag : String)
    (hreq : "jump_to_frame" ∈ actions)
    (hset : env.settings_main_timeline_tag = some tag) (htag : tag ≠ "")
    (hres : env.resolver = some md) (hmd : md ≠ [])
    (hproj : env.relates_to_current_project md = true)
    (hscene : env.relates_to_existing_scene md = true)
    (hfn : pyTruthyOptStr (dictGet md "frame_number") = true) :
    generate_actions env actions =
      (env.base ++ [jumpDesc md tag],
       [GenCall.resolveMetadata, GenCall.checkProject, GenCall.checkScene]) := by
  simp [generate_actions, hreq, hset, htag, hres, hmd, hproj, hscene, hfn]

theorem generate_actions_not_eligible (env : GenEnv) (actions : List String)
    (h : ¬ ("jump_to_frame" ∈ actions ∧
            pyTruthyOptStr env.settings_main_timeline_tag = true ∧
            ∃ md, env.resolver = some md ∧ md ≠ [] ∧
              env.relates_to_current_project md = true ∧
              env.relates_to_existing_scene md = true ∧
              pyTruthyOptStr (dictGet md "frame_number") = true)) :
    (generate_actions env actions).1 = env.base := by
  by_cases hreq : "jump_to_frame" ∈ actions
  · cases hset : env.settings_main_timeline_tag with
    | none => simp [generate_actions, hreq, hset]
    | some tag =>
      by_cases htag : tag = ""
      · simp [generate_actions, hreq, hset, htag]
      · cases hres : env.resolver with
        | none => simp [generate_actions, hreq, hset, htag, hres]
        | some md =>
          by_cases hmd : md = []
          · simp [generate_actions, hreq, hset, htag, hres, hmd]
          · by_cases hproj : env.relates_to_current_project md = true
            · by_cases hscene : env.relates_to_existing_scene md = true
              · by_cases hfn : pyTruthyOptStr (dictGet md "frame_number") = true
                · exact absurd
                    ⟨hreq, by simp [hset, pyTruthyOptStr, htag],
                     md, hres, hmd, hproj, hscene, hfn⟩ h
                · simp [generate_actions, hreq, hset, htag, hres, hmd, hproj, hscene,
                    Bool.eq_false_iff.mpr hfn]
              · simp [generate_actions, hreq, hset, htag, hres, hmd, hproj,
                  Bool.eq_false_iff.mpr hscene]
            · simp [generate_actions, hreq, hset, htag, hres, hmd,
                Bool.eq_false_iff.mpr hproj]
  · simp [generate_actions, hreq]

theorem pyTruthyOptStr_iff (o : Option String) :
    pyTruthyOptStr o = true ↔ ∃ s, o = some s ∧ s ≠ "" := by
  cases o <;> simp [pyTruthyOptStr]

theorem pyTruthyOptDict_eq_false_iff (o : Option PyDict) :
    pyTruthyOptDict o = false ↔ o = none ∨ o = some [] := by
  cases o <;> simp [pyTruthyOptDict]

/-- A sample metadata dict used to instantiate theorems. -/
def sampleMd : PyDict := [("scene_path", "Assets/s.unity"), ("frame_number", "48")]

/-- A sample enumerator environment in which every eligibility condition
holds. -/
def envEligible : GenEnv :=
  { base := []
    settings_main_timeline_tag := some "MainTimeline"
    resolver := some sampleMd
    relates_to_current_project := fun _ => true
    relates_to_existing_scene := fun _ => true }

/-- C1: `generate_actions` emits a `jump_to_frame` descriptor iff
`"jump_to_frame"` is requested, the configured `main_timeline_tag` is
truthy, the resolver returns truthy metadata, the metadata relates to the
current project and to an existing scene, and it has a non-empty
`frame_number`; and every descriptor in the output is either a base
descriptor or the complete `jump_to_frame` descriptor (never a partial
one). -/
theorem C1_jump_action_iff (env : GenEnv) (actions : List String)
    (hbase : ∀ d ∈ env.base, d.name ≠ "jump_to_frame") :
    ((∃ d ∈ (generate_actions env actions).1, d.name = "jump_to_frame") ↔
      ("jump_to_frame" ∈ actions ∧
       pyTruthyOptStr env.settings_main_timeline_tag = true ∧
       ∃ md, env.resolver = some md ∧ md ≠ [] ∧
         env.relates_to_current_project md = true ∧
         env.relates_to_existing_scene md = true ∧
         pyTruthyOptStr (dictGet md "frame_number") = true)) ∧
    ∀ d ∈ (generate_actions env actions).1,
      d ∈ env.base ∨
        ∃ md tag, env.resolver = some md ∧ md ≠ [] ∧
          env.settings_main_timeline_tag = some tag ∧ tag ≠ "" ∧ d = jumpDesc md tag := by
  by_cases h : ("jump_to_frame" ∈ actions ∧
      pyTruthyOptStr env.settings_main_timeline_tag = true ∧
      ∃ md, env.resolver = some md ∧ md ≠ [] ∧
        env.relates_to_current_project md = true ∧
        env.relates_to_existing_scene md = true ∧
        pyTruthyOptStr (dictGet md "frame_number") = true)
  · obtain ⟨hreq, htagT, md, hres, hmd, hproj, hscene, hfn⟩ := h
    obtain ⟨tag, hset, htag⟩ := (pyTruthyOptStr_iff _).mp htagT
    rw [generate_actions_eligible env actions md tag hreq hset htag hres hmd hproj
      hscene hfn]
    constructor
    · exact iff_of_true ⟨jumpDesc md tag, by simp, rfl⟩
        ⟨hreq, htagT, md, hres, hmd, hproj, hscene, hfn⟩
    · intro d hd
      rcases List.mem_append.mp hd with hl | hr
      · exact Or.inl hl
      · exact Or.inr ⟨md, tag, hres, hmd, hset, htag, List.mem_singleton.mp hr⟩
  · rw [generate_actions_not_eligible env actions h]
    constructor
    · refine iff_of_false ?_ h
      rintro ⟨d, hd, hname⟩
      exact hbase d hd hname
    · exact fun d hd => Or.inl hd
theorem C1_jump_action_iff_witness :
    ∃ d ∈ (generate_actions envEligible ["jump_to_frame"]).1,
      d.name = "jump_to_frame" :=
  ((C1_jump_action_iff envEligible ["jump_to_frame"] (by simp [envEligible])).1).mpr
    ⟨by simp, by simp [envEligible, pyTruthyOptStr], sampleMd, rfl, by simp [sampleMd],
     rfl, rfl, by simp [sampleMd, pyTruthyOptStr, dictGet]⟩

/-- C2: when every eligibility check passes, the output is exactly the
base result with one appended descriptor named `jump_to_frame` whose
group and caption are `Jump to Frame` and whose params are the resolved
metadata extended with `main_timeline_tag`; all other keys are
unchanged. -/
theorem C2_success_shape (env : GenEnv) (actions : List String) (md : PyDict)
    (tag : String)
    (hreq : "jump_to_frame" ∈ actions)
    (hset : env.settings_main_timeline_tag = some tag) (htag : tag ≠ "")
    (hres : env.resolver = some md) (hmd : md ≠ [])
    (hproj : env.relates_to_current_project md = true)
    (hscene : env.relates_to_existing_scene md = true)
    (hfn : pyTruthyOptStr (dictGet md "frame_number") = true) :
    (generate_actions env actions).1 = env.base ++ [jumpDesc md tag] ∧
    (jumpDesc md tag).name = "jump_to_frame" ∧
    (jumpDesc md tag).group = "Jump to Frame" ∧
    (jumpDesc md tag).caption = "Jump to Frame" ∧
    (jumpDesc md tag).params = dictInsert md "main_timeline_tag" tag ∧
    dictGet (jumpDesc md tag).params "main_timeline_tag" = some tag ∧
    ∀ k, k ≠ "main_timeline_tag" →
      dictGet (jumpDesc md tag).params k = dictGet md k := by
  refine ⟨?_, rfl, rfl, rfl, rfl, ?_, ?_⟩
  · rw [generate_actions_eligible env actions md tag hreq hset htag hres hmd hproj
      hscene hfn]
  · exact dictGet_dictInsert_self md "main_timeline_tag" tag
  · exact fun k hk => dictGet_dictInsert_ne md "main_timeline_tag" k tag hk
theorem C2_success_shape_witness :
    (generate_actions envEligible ["jump_to_frame"]).1 =
      envEligible.base ++ [jumpDesc sampleMd "MainTimeline"] ∧
    dictGet (jumpDesc sampleMd "MainTimeline").params "main_timeline_tag" =
      some "MainTimeline" ∧
    dictGet (jumpDesc sampleMd "MainTimeline").params "frame_number" = some "48" := by
  have h := C2_success_shape envEligible ["jump_to_frame"] sampleMd "MainTimeline"
    (by simp) rfl (by simp) rfl (by simp [sampleMd]) rfl rfl
    (by simp [sampleMd, pyTruthyOptStr, dictGet])
  refine ⟨h.1, h.2.2.2.2.2.1, ?_⟩
  rw [h.2.2.2.2.2.2 "frame_number" (by simp)]
  simp [sampleMd, dictGet]

/-- C3: whenever the resolver returns no (or falsy) metadata, or the
metadata fails the project check, the scene check, or the frame-number
check, the output equals the base result exactly; and the resolver-module
calls are made in the fixed order resolve, project, scene, stopping at the
first failing check. -/
theorem C3_short_circuit (env : GenEnv) (actions : List String) :
    ((pyTruthyOptDict env.resolver = false ∨
      (∃ md, env.resolver = some md ∧
        (env.relates_to_current_project md = false ∨
         env.relates_to_existing_scene md = false ∨
         pyTruthyOptStr (dictGet md "frame_number") = false))) →
      (generate_actions env actions).1 = env.base) ∧
    (∀ tag, "jump_to_frame" ∈ actions →
      env.settings_main_timeline_tag = some tag → tag ≠ "" →
      (pyTruthyOptDict env.resolver = false →
        (generate_actions env actions).2 = [GenCall.resolveMetadata]) ∧
      (∀ md, env.resolver = some md → md ≠ [] →
        env.relates_to_current_project md = false →
        (generate_actions env actions).2 =
          [GenCall.resolveMetadata, GenCall.checkProject]) ∧
      (∀ md, env.resolver = some md → md ≠ [] →
        env.relates_to_current_project md = true →
        env.relates_to_existing_scene md = false →
        (generate_actions env actions).2 =
          [GenCall.resolveMetadata, GenCall.checkProject, GenCall.checkScene])) := by
  constructor
  · intro hcase
    apply generate_actions_not_eligible
    rintro ⟨-, -, md, hres, hmd, hproj, hscene, hfn⟩
    rcases hcase with hfalsy | ⟨md', hres', hbad⟩
    · rcases (pyTruthyOptDict_eq_false_iff _).mp hfalsy with h0 | h0 <;>
        rw [h0] at hres
      · exact Option.noConfusion hres
      · exact hmd (Option.some.inj hres).symm
    · rw [hres'] at hres
      obtain rfl : md' = md := Option.some.inj hres
      rcases hbad with hb | hb | hb
      · rw [hproj] at hb; exact Bool.noConfusion hb
      · rw [hscene] at hb; exact Bool.noConfusion hb
      · rw [hfn] at hb; exact Bool.noConfusion hb
  · intro tag hreq hset htag
    refine ⟨?_, ?_, ?_⟩
    · intro hfalsy
      rcases (pyTruthyOptDict_eq_false_iff _).mp hfalsy with h0 | h0 <;>
        simp [generate_actions, hreq, hset, htag, h0]
    · intro md hres hmd hproj
      simp [generate_actions, hreq, hset, htag, hres, hmd, hproj]
    · intro md hres hmd hproj hscene
      simp [generate_actions, hreq, hset, htag, hres, hmd, hproj, hscene]
theorem C3_short_circuit_witness :
    (generate_actions
      { base := []
        settings_main_timeline_tag := some "MainTimeline"
        resolver := some sampleMd
        relates_to_current_project := fun _ => false
        relates_to_existing_scene := fun _ => true }
      ["jump_to_frame"]).1 = [] ∧
    (generate_actions
      { base := []
        settings_main_timeline_tag := some "MainTimeline"
        resolver := some sampleMd
        relates_to_current_project := fun _ => false
        relates_to_existing_scene := fun _ => true }
      ["jump_to_frame"]).2 = [GenCall.resolveMetadata, GenCall.checkProject] := by
  have h := C3_short_circuit
    { base := []
      settings_main_timeline_tag := some "MainTimeline"
      resolver := some sampleMd
      relates_to_current_project := fun _ => false
      relates_to_existing_scene := fun _ => true }
    ["jump_to_frame"]
  exact ⟨h.1 (Or.inr ⟨sampleMd, rfl, Or.inl rfl⟩),
    (h.2 "MainTimeline" (by simp) rfl (by simp)).2.1 sampleMd rfl
      (by simp [sampleMd]) rfl⟩

/-- C4: when `"jump_to_frame"` is not among the requested actions, the
output is the base result, it is the same for any two environments that
share the base result (whatever the configuration and resolver do), and
the resolver is never consulted (empty call trace). -/
theorem C4_no_resolver_consult (env1 env2 : GenEnv) (actions : List String)
    (hreq : "jump_to_frame" ∉ actions) (hb : env1.base = env2.base) :
    (generate_actions env1 actions).1 = env1.base ∧
    generate_actions env1 actions = generate_actions env2 actions ∧
    (generate_actions env1 actions).2 = [] := by
  refine ⟨by simp [generate_actions, hreq], ?_, by simp [generate_actions, hreq]⟩
  simp [generate_actions, hreq, hb]
theorem C4_no_resolver_consult_witness :
    (generate_actions
      { base := []
        settings_main_timeline_tag := none
        resolver := none
        relates_to_current_project := fun _ => false
        relates_to_existing_scene := fun _ => false }
      ["publish"]).1 = [] ∧
    generate_actions
      { base := []
        settings_main_timeline_tag := none
        resolver := none
        relates_to_current_project := fun _ => false
        relates_to_existing_scene := fun _ => false }
      ["publish"] =
      generate_actions envEligible ["publish"] ∧
    (generate_actions
      { base := []
        settings_main_timeline_tag := none
        resolver := none
        relates_to_current_project := fun _ => false
        relates_to_existing_scene := fun _ => false }
      ["publish"]).2 = [] :=
  C4_no_resolver_consult
    { base := []
      settings_main_timeline_tag := none
      resolver := none
      relates_to_current_project := fun _ => false
      relates_to_existing_scene := fun _ => false }
    envEligible ["publish"] (by simp) rfl

/-! ## Characterization lemmas for the executor -/

theorem execute_action_no_objects (env : ExecEnv) (params sg_data : PyDict)
    (s tag : String) (n : Int)
    (hfn : dictGet params "frame_number" = some s)
    (hparse : pyInt s = some n)
    (htag : dictGet params "main_timeline_tag" = some tag)
    (hempty : env.findGameObjectsWithTag tag = []) :
    execute_action env "jump_to_frame" params sg_data =
      { effects :=
          [Effect.openScene (dictGet params "scene_path"),
           Effect.executeMenuItem "Window/Sequencing/Timeline",
           Effect.findGameObjectsWithTag tag,
           Effect.logError (pleaseTagMsg tag)]
        raised := none } := by
  simp [execute_action, hfn, hparse, htag, hempty]

theorem execute_action_no_director (env : ExecEnv) (params sg_data : PyDict)
    (s tag : String) (n : Int) (g0 : UGameObject) (rest : List UGameObject)
    (hfn : dictGet params "frame_number" = some s)
    (hparse : pyInt s = some n)
    (htag : dictGet params "main_timeline_tag" = some tag)
    (hfind : env.findGameObjectsWithTag tag = g0 :: rest)
    (hdir : g0.director = none) :
    execute_action env "jump_to_frame" params sg_data =
      { effects :=
          [Effect.openScene (dictGet params "scene_path"),
           Effect.executeMenuItem "Window/Sequencing/Timeline",
           Effect.findGameObjectsWithTag tag,
           Effect.getComponent g0.name,
           Effect.logError (pleaseTagMsg tag)]
        raised := none } := by
  simp [execute_action, hfn, hparse, htag, hfind, hdir]

theorem execute_action_with_director (env : ExecEnv) (params sg_data : PyDict)
    (s tag : String) (n : Int) (g0 : UGameObject) (rest : List UGameObject)
    (d : Director)
    (hfn : dictGet params "frame_number" = some s)
    (hparse : pyInt s = some n)
    (htag : dictGet params "main_timeline_tag" = some tag)
    (hfind : env.findGameObjectsWithTag tag = g0 :: rest)
    (hdir : g0.director = some d) :
    execute_action env "jump_to_frame" params sg_data =
      { effects :=
          [Effect.openScene (dictGet params "scene_path"),
           Effect.executeMenuItem "Window/Sequencing/Timeline",
           Effect.findGameObjectsWithTag tag,
           Effect.getComponent g0.name] ++ tryBody env.raiseAt g0 d n
        raised := none } := by
  simp [execute_action, hfn, hparse, htag, hfind, hdir]

theorem pleaseTag_ne_noAsset (tag obj : String) :
    pleaseTagMsg tag ≠ noAssetMsg obj := by
  intro h
  have hd : (pleaseTagMsg tag).data.take 37 = (noAssetMsg obj).data.take 37 := by
    rw [h]
  have h1 : (pleaseTagMsg tag).data.take 37 =
      ("Shotgun is unable to jump to frame: please choose a PlayableDirector and tag it with \"".data.take 37) := by
    show ((("Shotgun is unable to jump to frame: please choose a PlayableDirector and tag it with \"".data ++
        tag.data) ++ "\".".data).take 37) = _
    rw [List.take_append_of_le_length, List.take_append_of_le_length] <;> simp
  have h2 : (noAssetMsg obj).data.take 37 =
      ("Shotgun is unable to jump to frame: The \"".data.take 37) := by
    show ((("Shotgun is unable to jump to frame: The \"".data ++ obj.data) ++
        "\" PlayableDirector does not have a valid Playable Asset assigned.".data).take 37) = _
    rw [List.take_append_of_le_length, List.take_append_of_le_length] <;> simp
  rw [h1, h2] at hd
  exact absurd hd (by decide)

/-- Sample `execute_action` params as the enumerator would produce them. -/
def paramsOk : PyDict :=
  [("scene_path", "Assets/s.unity"), ("frame_number", "48"),
   ("main_timeline_tag", "MainTimeline")]

/-- A host environment with one tagged object carrying a director whose
timeline runs at 24 fps, and no host exceptions. -/
def execEnvOk : ExecEnv :=
  { findGameObjectsWithTag := fun _ =>
      [{ name := "MainTimelineObject"
         director := some { playableAsset := some { fps := 24 } } }]
    raiseAt := none }

/-- C5: with a reachable tagged director whose timeline asset is assigned
(and a non-zero fps, no host exception), `execute_action "jump_to_frame"`
sets the director's time to `frame_number / fps` using rational (real
valued) division. -/
theorem C5_sets_time_by_division (env : ExecEnv) (params sg_data : PyDict)
    (s tag : String) (n : Int) (g0 : UGameObject) (rest : List UGameObject)
    (d : Director) (tl : Timeline)
    (hfn : dictGet params "frame_number" = some s)
    (hparse : pyInt s = some n)
    (htag : dictGet params "main_timeline_tag" = some tag)
    (hfind : env.findGameObjectsWithTag tag = g0 :: rest)
    (hdir : g0.director = some d)
    (hasset : d.playableAsset = some tl)
    (hfps : tl.fps ≠ 0)
    (hraise : env.raiseAt = none) :
    execute_action env "jump_to_frame" params sg_data =
      { effects :=
          [Effect.openScene (dictGet params "scene_path"),
           Effect.executeMenuItem "Window/Sequencing/Timeline",
           Effect.findGameObjectsWithTag tag,
           Effect.getComponent g0.name,
           Effect.setActiveObject g0.name,
           Effect.setTime ((n : ℚ) / tl.fps)]
        raised := none } := by
  simp [execute_action, tryBody, raiseMsg, hfn, hparse, htag, hfind, hdir, hasset,
    hfps, hraise]
theorem C5_sets_time_by_division_witness :
    (execute_action execEnvOk "jump_to_frame" paramsOk []).effects =
      [Effect.openScene (some "Assets/s.unity"),
       Effect.executeMenuItem "Window/Sequencing/Timeline",
       Effect.findGameObjectsWithTag "MainTimeline",
       Effect.getComponent "MainTimelineObject",
       Effect.setActiveObject "MainTimelineObject",
       Effect.setTime 2] := by
  have h := C5_sets_time_by_division execEnvOk paramsOk [] "48" "MainTimeline" 48
    { name := "MainTimelineObject"
      director := some { playableAsset := some { fps := 24 } } }
    [] { playableAsset := some { fps := 24 } } { fps := 24 }
    (by rfl) (by rfl) (by rfl) (by rfl) (by rfl) (by rfl) (by norm_num) (by rfl)
  rw [h, show ((48 : Int) : ℚ) / (Timeline.mk 24).fps = 2 from by norm_num]
  rfl

/-- C6: a `frame_number` that does not parse as an integer makes
`execute_action "jump_to_frame"` propagate the error to its caller
(uncaught `ValueError`). -/
theorem C6_unparseable_frame_raises (env : ExecEnv) (params sg_data : PyDict)
    (s : String)
    (hfn : dictGet params "frame_number" = some s)
    (hparse : pyInt s = none) :
    (execute_action env "jump_to_frame" params sg_data).raised =
      some ("ValueError: invalid literal for int() with base 10: " ++ s) := by
  simp [execute_action, hfn, hparse]
theorem C6_unparseable_frame_raises_witness :
    (execute_action { findGameObjectsWithTag := fun _ => [], raiseAt := none }
        "jump_to_frame" [("frame_number", "abc")] []).raised =
      some ("ValueError: invalid literal for int() with base 10: " ++ "abc") :=
  C6_unparseable_frame_raises
    { findGameObjectsWithTag := fun _ => [], raiseAt := none }
    [("frame_number", "abc")] [] "abc" (by rfl) (by rfl)

/-- C7: once the `frame_number` parse and the `main_timeline_tag` access
have succeeded (the director-lookup stage is reached), `execute_action`
never raises; a director without a timeline asset yields an error log
naming the object and no time is set; no tagged object yields a different
error log; and an exception raised by the host at any statement of the
`try` block that execution reaches -- selecting the director, reading the
timeline asset, reading its fps, or setting the time -- is caught and
logged with the underlying cause. -/
theorem C7_director_stage_never_raises (env : ExecEnv) (params sg_data : PyDict)
    (s tag : String) (n : Int)
    (hfn : dictGet params "frame_number" = some s)
    (hparse : pyInt s = some n)
    (htag : dictGet params "main_timeline_tag" = some tag) :
    (execute_action env "jump_to_frame" params sg_data).raised = none ∧
    (env.findGameObjectsWithTag tag = [] →
      Effect.logError (pleaseTagMsg tag) ∈
        (execute_action env "jump_to_frame" params sg_data).effects ∧
      ∀ t, Effect.setTime t ∉
        (execute_action env "jump_to_frame" params sg_data).effects) ∧
    (∀ g0 rest d, env.findGameObjectsWithTag tag = g0 :: rest →
      g0.director = some d → d.playableAsset = none → env.raiseAt = none →
      Effect.logError (noAssetMsg g0.name) ∈
        (execute_action env "jump_to_frame" params sg_data).effects ∧
      ∀ t, Effect.setTime t ∉
        (execute_action env "jump_to_frame" params sg_data).effects) ∧
    (∀ g0 rest d step msg, env.findGameObjectsWithTag tag = g0 :: rest →
      g0.director = some d →
      env.raiseAt = some (step, msg) →
      ((step = TryStep.getFps ∨ step = TryStep.setTime) → d.playableAsset.isSome) →
      (∀ tl, step = TryStep.setTime → d.playableAsset = some tl → tl.fps ≠ 0) →
      Effect.logError (catchMsg msg) ∈
        (execute_action env "jump_to_frame" params sg_data).effects ∧
      ∀ t, Effect.setTime t ∉
        (execute_action env "jump_to_frame" params sg_data).effects) ∧
    (∀ obj, pleaseTagMsg tag ≠ noAssetMsg obj) := by
  refine ⟨?_, ?_, ?_, ?_, fun obj => pleaseTag_ne_noAsset tag obj⟩
  · rcases hgo : env.findGameObjectsWithTag tag with - | ⟨g0, rest⟩
    · rw [execute_action_no_objects env params sg_data s tag n hfn hparse htag hgo]
    · rcases hdir : g0.director with - | d
      · rw [execute_action_no_director env params sg_data s tag n g0 rest hfn hparse
          htag hgo hdir]
      · rw [execute_action_with_director env params sg_data s tag n g0 rest d hfn
          hparse htag hgo hdir]
  · intro hgo
    rw [execute_action_no_objects env params sg_data s tag n hfn hparse htag hgo]
    exact ⟨by simp, by simp⟩
  · intro g0 rest d hgo hdir hasset hraise
    rw [execute_action_with_director env params sg_data s tag n g0 rest d hfn hparse
      htag hgo hdir]
    rw [hraise]
    simp [tryBody, raiseMsg, hasset]
  · intro g0 rest d step msg hgo hdir hraise hreach hfps
    rw [execute_action_with_director env params sg_data s tag n g0 rest d hfn hparse
      htag hgo hdir]
    rw [hraise]
    cases step with
    | select => exact ⟨by simp [tryBody, raiseMsg], by simp [tryBody, raiseMsg]⟩
    | getAsset => exact ⟨by simp [tryBody, raiseMsg], by simp [tryBody, raiseMsg]⟩
    | getFps =>
      obtain ⟨tl, hasset⟩ := Option.isSome_iff_exists.mp (hreach (Or.inl rfl))
      exact ⟨by simp [tryBody, raiseMsg, hasset],
             by simp [tryBody, raiseMsg, hasset]⟩
    | setTime =>
      obtain ⟨tl, hasset⟩ := Option.isSome_iff_exists.mp (hreach (Or.inr rfl))
      have hz : tl.fps ≠ 0 := hfps tl rfl hasset
      exact ⟨by simp [tryBody, raiseMsg, hasset, hz],
             by simp [tryBody, raiseMsg, hasset, hz]⟩
theorem C7_director_stage_never_raises_witness :
    (execute_action { findGameObjectsWithTag := fun _ => [], raiseAt := none }
        "jump_to_frame" paramsOk []).raised = none ∧
    Effect.logError (pleaseTagMsg "MainTimeline") ∈
      (execute_action { findGameObjectsWithTag := fun _ => [], raiseAt := none }
        "jump_to_frame" paramsOk []).effects ∧
    Effect.logError (catchMsg "boom") ∈
      (execute_action
        { findGameObjectsWithTag := fun _ =>
            [{ name := "MainTimelineObject"
               director := some { playableAsset := some { fps := 24 } } }]
          raiseAt := some (TryStep.getAsset, "boom") }
        "jump_to_frame" paramsOk []).effects := by
  have h := C7_director_stage_never_raises
    { findGameObjectsWithTag := fun _ => [], raiseAt := none }
    paramsOk [] "48" "MainTimeline" 48 (by rfl) (by rfl) (by rfl)
  have h2 := C7_director_stage_never_raises
    { findGameObjectsWithTag := fun _ =>
        [{ name := "MainTimelineObject"
           director := some { playableAsset := some { fps := 24 } } }]
      raiseAt := some (TryStep.getAsset, "boom") }
    paramsOk [] "48" "MainTimeline" 48 (by rfl) (by rfl) (by rfl)
  refine ⟨h.1, (h.2.1 rfl).1, ?_⟩
  exact (h2.2.2.2.1
    { name := "MainTimelineObject"
      director := some { playableAsset := some { fps := 24 } } }
    [] { playableAsset := some { fps := 24 } } TryStep.getAsset "boom"
    rfl rfl rfl (fun _ => rfl)
    (fun tl heq _ => absurd heq (by decide))).1

/-- C8: every action name other than `jump_to_frame` is delegated to the
base-class executor with `(name, params, sg_data)` unchanged, with no
host-editor call and no exception. -/
theorem C8_delegates_other_actions (env : ExecEnv) (name : String)
    (params sg_data : PyDict) (h : name ≠ "jump_to_frame") :
    execute_action env name params sg_data =
      { effects := [Effect.callBase name params sg_data], raised := none } ∧
    ∀ e ∈ (execute_action env name params sg_data).effects,
      e.isHostCall = false := by
  have h1 : execute_action env name params sg_data =
      { effects := [Effect.callBase name params sg_data], raised := none } := by
    simp [execute_action, h]
  refine ⟨h1, ?_⟩
  rw [h1]
  simp [Effect.isHostCall]
theorem C8_delegates_other_actions_witness :
    execute_action execEnvOk "publish_file" paramsOk [("type", "Version")] =
      { effects := [Effect.callBase "publish_file" paramsOk [("type", "Version")]]
        raised := none } :=
  (C8_delegates_other_actions execEnvOk "publish_file" paramsOk
    [("type", "Version")] (by simp)).1

/-- C9: the integer parse of `frame_number` precedes every host-editor
call, so a failing parse propagates with no effect performed: no scene
opened, no panel shown. -/
theorem C9_parse_precedes_host_calls (env : ExecEnv) (params sg_data : PyDict)
    (hbad : dictGet params "frame_number" = none ∨
      ∃ s, dictGet params "frame_number" = some s ∧ pyInt s = none) :
    (execute_action env "jump_to_frame" params sg_data).effects = [] ∧
    (execute_action env "jump_to_frame" params sg_data).raised ≠ none := by
  rcases hbad with h0 | ⟨s, h1, h2⟩
  · simp [execute_action, h0]
  · simp [execute_action, h1, h2]
theorem C9_parse_precedes_host_calls_witness :
    (execute_action execEnvOk "jump_to_frame" [("frame_number", "4.5")] []).effects =
      [] ∧
    (execute_action execEnvOk "jump_to_frame" [("frame_number", "4.5")] []).raised ≠
      none :=
  C9_parse_precedes_host_calls execEnvOk [("frame_number", "4.5")] []
    (Or.inr ⟨"4.5", by rfl, by rfl⟩)

/-- C10: only the first object returned by the tag lookup is examined:
when it has no `PlayableDirector`, the please-tag error path is taken even
if a later tagged object does carry a director, and `GetComponent` is
called on no other object. -/
theorem C10_first_object_only (env : ExecEnv) (params sg_data : PyDict)
    (s tag : String) (n : Int) (g0 : UGameObject) (rest : List UGameObject)
    (hfn : dictGet params "frame_number" = some s)
    (hparse : pyInt s = some n)
    (htag : dictGet params "main_timeline_tag" = some tag)
    (hfind : env.findGameObjectsWithTag tag = g0 :: rest)
    (hdir : g0.director = none)
    (hlater : ∃ g ∈ rest, g.director.isSome) :
    Effect.logError (pleaseTagMsg tag) ∈
      (execute_action env "jump_to_frame" params sg_data).effects ∧
    (∀ t, Effect.setTime t ∉
      (execute_action env "jump_to_frame" params sg_data).effects) ∧
    (∀ obj, Effect.getComponent obj ∈
        (execute_action env "jump_to_frame" params sg_data).effects →
      obj = g0.name) := by
  rw [execute_action_no_director env params sg_data s tag n g0 rest hfn hparse htag
    hfind hdir]
  refine ⟨by simp, by simp, ?_⟩
  intro obj hobj
  simpa using hobj
theorem C10_first_object_only_witness :
    Effect.logError (pleaseTagMsg "MainTimeline") ∈
      (execute_action
        { findGameObjectsWithTag := fun _ =>
            [{ name := "Decoy", director := none },
             { name := "Real"
               director := some { playableAsset := some { fps := 24 } } }]
          raiseAt := none }
        "jump_to_frame" paramsOk []).effects ∧
    ∀ obj, Effect.getComponent obj ∈
        (execute_action
          { findGameObjectsWithTag := fun _ =>
              [{ name := "Decoy", director := none },
               { name := "Real"
                 director := some { playableAsset := some { fps := 24 } } }]
            raiseAt := none }
          "jump_to_frame" paramsOk []).effects →
      obj = "Decoy" := by
  have h := C10_first_object_only
    { findGameObjectsWithTag := fun _ =>
        [{ name := "Decoy", director := none },
         { name := "Real", director := some { playableAsset := some { fps := 24 } } }]
      raiseAt := none }
    paramsOk [] "48" "MainTimeline" 48 { name := "Decoy", director := none }
    [{ name := "Real", director := some { playableAsset := some { fps := 24 } } }]
    (by rfl) (by rfl) (by rfl) (by rfl) (by rfl) (by simp)
  exact ⟨h.1, h.2.2⟩
